import Mathlib

/-!
Shallow embedding of the coverage-analysis engine of the interflow backend
(`src/services/analyse_service.py` together with the repository filters it
relies on in `src/repositories/besoins_repository.py`,
`src/repositories/stocks_repository.py` and
`src/repositories/rappatriements_repository.py`).

Modelling choices:
* Python `float` quantities are modelled by `ℚ` (exact arithmetic; the code
  performs only `+`, `-`, `/`, `*` and comparisons, and division is reached
  only with a positive divisor, proved below).
* `datetime` due dates are modelled by `ℤ` (a day number); the code only
  compares dates and adds whole days (`timedelta(days=n)`).
* Python strings are Lean `String`s; `s.lower()` is `Char.toLower` mapped
  over the characters and `a in b` is the substring test `hasSub`.
* Python's `sorted(..., key=lambda b: b.echeance)` is a stable sort by due
  date; it is embedded as the stable insertion sort `sortByEcheance`
  (stable sorts by a fixed key are extensionally unique, so any faithful
  stable sort gives the same list).
-/

/-- `models/matieres.py`: a raw material, identified by `code_mp`. -/
structure Matiere where
  code_mp : String
  nom : String
deriving DecidableEq, Repr

/-- `models/besoin.py`: the `Etat` enum of a demand event. -/
inductive Etat where
  | INCONNU
  | PARTIEL
  | COUVERT
  | NON_COUVERT
deriving DecidableEq, Repr

/-- `models/besoin.py`: a demand event ("besoin"). -/
structure Besoin where
  id : String
  matiere : Matiere
  quantite : ℚ
  echeance : ℤ
  etat : Etat
  lot : String
deriving DecidableEq, Repr

/-- `models/stock.py`: a stock record (only the fields the analysis reads).
`matiere` is optional, as in the source (`stock.matiere` may be `None`). -/
structure Stock where
  matiere : Option Matiere
  quantite : ℚ
  magasin : String
deriving DecidableEq, Repr

/-- `models/rappatriement.py`: a line item of an inbound shipment. -/
structure ProduitRappatriement where
  code_prdt : String
  designation_prdt : String
  poids_net : ℚ
deriving DecidableEq, Repr

/-- `models/rappatriement.py`: an inbound shipment ("rappatriement"). -/
structure Rappatriement where
  produits : List ProduitRappatriement
deriving DecidableEq, Repr

/-- `models/reception.py`: the `EtatReception` enum. -/
inductive EtatReception where
  | EN_COURS
  | TERMINEE
deriving DecidableEq, Repr

/-- `models/reception.py`: a pending receipt (informational only). -/
structure Reception where
  matiere : Matiere
  quantite : ℚ
  etat : EtatReception
deriving DecidableEq, Repr

/-- The three string literals `_calculate_coverage_state` can return
(`"COUVERT"`, `"PARTIEL"`, `"NON_COUVERT"`). -/
inductive CovState where
  | COUVERT
  | PARTIEL
  | NON_COUVERT
deriving DecidableEq, Repr

/-- `AnalyseService._string_to_etat`: maps the state string to the `Etat`
enum (default branch `NON_COUVERT` is unreachable for these inputs). -/
def stringToEtat : CovState → Etat
  | CovState.COUVERT => Etat.COUVERT
  | CovState.PARTIEL => Etat.PARTIEL
  | CovState.NON_COUVERT => Etat.NON_COUVERT

/-- Does `a` start with `b == ` the needle? (helper for the substring test). -/
def leadEq : List Char → List Char → Bool
  | [], _ => true
  | _ :: _, [] => false
  | a :: as, b :: bs => a == b && leadEq as bs

/-- Python's `needle in hay` on lists of characters. -/
def hasSub (needle : List Char) : List Char → Bool
  | [] => needle.isEmpty
  | c :: rest => leadEq needle (c :: rest) || hasSub needle rest

/-- `s.lower()` as a character list. -/
def lowerChars (s : String) : List Char := s.data.map Char.toLower

/-- Python's `a.lower() in b.lower()`. -/
def pyIn (a b : String) : Bool := hasSub (lowerChars a) (lowerChars b)

/-- The matching test used on shipment line items, in both
`AnalyseService._calculate_rappatriements_quantity` and
`RappatriementsRepository.get_rappatriements_by_matiere`:
`code_mp.lower() in produit.code_prdt.lower() or
 code_mp.lower() in produit.designation_prdt.lower()`. -/
def produitMatches (code_mp : String) (p : ProduitRappatriement) : Bool :=
  pyIn code_mp p.code_prdt || pyIn code_mp p.designation_prdt

/-- `AnalyseService._calculate_rappatriements_quantity`: sum of `poids_net`
over all matching line items of all given shipments. -/
def calculateRappatriementsQuantity (code_mp : String)
    (rappatriements : List Rappatriement) : ℚ :=
  rappatriements.foldl
    (fun acc r =>
      r.produits.foldl
        (fun acc2 p => if produitMatches code_mp p then acc2 + p.poids_net else acc2)
        acc)
    0

/-- `AnalyseService._calculate_coverage_state`: returns
`(etat, quantite_disponible, pourcentage_couverture)`. -/
def calculateCoverageState (stock_disponible quantite_besoin : ℚ) :
    CovState × ℚ × ℚ :=
  if stock_disponible ≥ quantite_besoin then
    (CovState.COUVERT, quantite_besoin, 100)
  else if stock_disponible > 0 then
    (CovState.PARTIEL, stock_disponible, stock_disponible / quantite_besoin * 100)
  else
    (CovState.NON_COUVERT, 0, 0)

/-- Stable insertion into a list sorted by `echeance` (an element is placed
before the first element with a due date `≥` its own, so the original
relative order of equal due dates is preserved). -/
def insertByEcheance (b : Besoin) : List Besoin → List Besoin
  | [] => [b]
  | c :: rest =>
      if b.echeance ≤ c.echeance then b :: c :: rest
      else c :: insertByEcheance b rest

/-- `sorted(besoins, key=lambda b: b.echeance)`: stable sort by due date. -/
def sortByEcheance : List Besoin → List Besoin
  | [] => []
  | b :: rest => insertByEcheance b (sortByEcheance rest)

/-- One entry of the list built by
`AnalyseService._analyze_matiere_chronological_coverage` (the per-event
result dict). -/
structure CouvertureResult where
  besoin : Besoin
  etat_couverture : CovState
  quantite_disponible : ℚ
  pourcentage_couverture : ℚ
  stock_restant : ℚ
deriving DecidableEq, Repr

/-- The loop body of `_analyze_matiere_chronological_coverage`: classifies
one event against the running stock, consumes the stock, and appends the
per-event result dict. -/
def chronoCoverageStep (acc : List CouvertureResult × ℚ) (besoin : Besoin) :
    List CouvertureResult × ℚ :=
  let res := calculateCoverageState acc.2 besoin.quantite
  let stock_courant :=
    if res.1 = CovState.COUVERT then acc.2 - besoin.quantite
    else if res.1 = CovState.PARTIEL then 0
    else acc.2
  (acc.1 ++ [{ besoin := besoin
               etat_couverture := res.1
               quantite_disponible := res.2.1
               pourcentage_couverture := res.2.2
               stock_restant := stock_courant }],
   stock_courant)

/-- The loop of `_analyze_matiere_chronological_coverage`, folded over the
sorted events. -/
def chronoCoverageLoop (stock_initial : ℚ) (besoins_tries : List Besoin) :
    List CouvertureResult × ℚ :=
  besoins_tries.foldl chronoCoverageStep ([], stock_initial)

/-- `AnalyseService._analyze_matiere_chronological_coverage`: sorts the
events by due date and classifies each against the running stock. -/
def analyzeMatiereChronologicalCoverage (besoins_matiere : List Besoin)
    (stock_initial : ℚ) : List CouvertureResult :=
  (chronoCoverageLoop stock_initial (sortByEcheance besoins_matiere)).1

/-- The flat collections the repositories read (the persisted state the
analysis depends on). -/
structure RepoState where
  besoins : List Besoin
  stocks : List Stock
  receptions : List Reception
  rappatriements : List Rappatriement
deriving DecidableEq, Repr

/-- `BesoinsRepository.get_besoins_by_etat` (via `filter_besoins_advanced`):
all stored demand events with the given state. -/
def getBesoinsByEtat (s : RepoState) (etat : Etat) : List Besoin :=
  s.besoins.filter (fun b => b.etat = etat)

/-- `BesoinsRepository.get_besoins_actuels_by_horizon`: the `unknown`
events whose due date is `≤ date_initiale + horizon_days`.  (The source
applies no lower bound on the due date.) -/
def getBesoinsActuelsByHorizon (s : RepoState) (horizon_days : ℤ)
    (date_initiale : ℤ) : List Besoin :=
  let besoins_actuels := getBesoinsByEtat s Etat.INCONNU
  let date_limite := date_initiale + horizon_days
  besoins_actuels.filter (fun b => b.echeance ≤ date_limite)

/-- Insertion step of `BesoinsRepository.group_besoins_by_matiere`:
Python dicts keep first-insertion key order, and values are appended. -/
def addToGroups (groups : List (String × List Besoin)) (code : String)
    (b : Besoin) : List (String × List Besoin) :=
  match groups with
  | [] => [(code, [b])]
  | (c, bs) :: rest =>
      if c = code then (c, bs ++ [b]) :: rest
      else (c, bs) :: addToGroups rest code b

/-- `BesoinsRepository.group_besoins_by_matiere` (also the inline grouping
loop of `AnalyseService.analyze_besoins`). -/
def groupBesoinsByMatiere (besoins : List Besoin) :
    List (String × List Besoin) :=
  besoins.foldl (fun gs b => addToGroups gs b.matiere.code_mp b) []

/-- `BesoinsRepository.get_besoins_actuels_by_horizon_grouped`. -/
def getBesoinsActuelsByHorizonGrouped (s : RepoState) (horizon_days : ℤ)
    (date_initiale : ℤ) : List (String × List Besoin) :=
  groupBesoinsByMatiere (getBesoinsActuelsByHorizon s horizon_days date_initiale)

/-- `BesoinsRepository.get_besoins_actuels_by_matiere_and_horizon`. -/
def getBesoinsActuelsByMatiereAndHorizon (s : RepoState) (code_mp : String)
    (horizon_days : ℤ) (date_initiale : ℤ) : List Besoin :=
  (getBesoinsActuelsByHorizon s horizon_days date_initiale).filter
    (fun b => b.matiere.code_mp = code_mp)

/-- The test `stock.matiere and stock.matiere.code_mp == code_mp` of
`StocksRepository.get_stocks_by_matiere`. -/
def stockMatches (code_mp : String) (st : Stock) : Prop :=
  match st.matiere with
  | some m => m.code_mp = code_mp
  | none => False

instance (code_mp : String) (st : Stock) : Decidable (stockMatches code_mp st) := by
  unfold stockMatches
  cases st.matiere <;> infer_instance

/-- `StocksRepository.get_stocks_by_matiere`: stocks of the material,
excluding the reserved warehouse `"30"`. -/
def getStocksByMatiere (s : RepoState) (code_mp : String) : List Stock :=
  s.stocks.filter (fun st => stockMatches code_mp st ∧ st.magasin ≠ "30")

/-- `StocksRepository.get_internal_stocks_by_matiere`: warehouse code does
not start with `"EX"` (and is not `"30"`). -/
def getInternalStocksByMatiere (s : RepoState) (code_mp : String) : List Stock :=
  (getStocksByMatiere s code_mp).filter (fun st => ¬ st.magasin.startsWith "EX")

/-- `StocksRepository.get_external_stocks_by_matiere`: warehouse code
starts with `"EX"` (and is not `"30"`). -/
def getExternalStocksByMatiere (s : RepoState) (code_mp : String) : List Stock :=
  (getStocksByMatiere s code_mp).filter (fun st => st.magasin.startsWith "EX")

/-- `ReceptionsRepository.get_receptions_en_cours`. -/
def getReceptionsEnCours (s : RepoState) : List Reception :=
  s.receptions.filter (fun r => r.etat = EtatReception.EN_COURS)

/-- `RappatriementsRepository.get_rappatriements_by_matiere`: keeps every
shipment with at least one matching line item. -/
def getRappatriementsByMatiere (s : RepoState) (code_matiere : String) :
    List Rappatriement :=
  s.rappatriements.filter (fun r => r.produits.any (produitMatches code_matiere))

/-- `AnalyseService._get_coverage_stock_for_matiere`: internal stock
quantity plus matched inbound-shipment quantity. -/
def getCoverageStockForMatiere (s : RepoState) (code_mp : String) : ℚ :=
  let stocks_internes := getInternalStocksByMatiere s code_mp
  let rappatriements := getRappatriementsByMatiere s code_mp
  let quantite_stock_internes := (stocks_internes.map (·.quantite)).sum
  let quantite_rappatriements := calculateRappatriementsQuantity code_mp rappatriements
  quantite_stock_internes + quantite_rappatriements

/-- One step of `_create_chronological_analysis`'s ledger (the
`EtapeChronologique` pydantic model; the due date is kept as a day number
rather than its `"%Y-%m-%d"` rendering). -/
structure EtapeChronologique where
  echeance : ℤ
  quantite_besoin : ℚ
  stock_avant : ℚ
  stock_apres : ℚ
  etat : CovState
deriving DecidableEq, Repr

/-- The `PremierBesoinNonCouvert` record of `_create_chronological_analysis`. -/
structure PremierBesoinNonCouvert where
  index : ℕ
  echeance : ℤ
  quantite_besoin : ℚ
  stock_restant : ℚ
  quantite_manquante : ℚ
deriving DecidableEq, Repr

/-- The `AnalyseChronologique` pydantic model. -/
structure AnalyseChronologique where
  couverture_chronologique : List EtapeChronologique
  premier_besoin_non_couvert : Option PremierBesoinNonCouvert
  stock_initial : ℚ
  stock_final : ℚ
deriving DecidableEq, Repr

/-- The indexed loop of `AnalyseService._create_chronological_analysis`:
walks the sorted events, records the first not-fully-covered event, and
builds the before/after ledger. -/
def chronoAnalysisLoop (i : ℕ) (stock_disponible : ℚ)
    (premier : Option PremierBesoinNonCouvert) :
    List Besoin → List EtapeChronologique × Option PremierBesoinNonCouvert × ℚ
  | [] => ([], premier, stock_disponible)
  | besoin :: rest =>
      let etat := (calculateCoverageState stock_disponible besoin.quantite).1
      let premier' :=
        if premier = none ∧ etat ≠ CovState.COUVERT then
          some { index := i
                 echeance := besoin.echeance
                 quantite_besoin := besoin.quantite
                 stock_restant := stock_disponible
                 quantite_manquante := besoin.quantite - stock_disponible }
        else premier
      let stock_apres :=
        if etat = CovState.COUVERT then stock_disponible - besoin.quantite
        else if etat = CovState.PARTIEL then 0
        else stock_disponible
      let t := chronoAnalysisLoop (i + 1) stock_apres premier' rest
      ({ echeance := besoin.echeance
         quantite_besoin := besoin.quantite
         stock_avant := stock_disponible
         stock_apres := stock_apres
         etat := etat } :: t.1,
       t.2.1, t.2.2)

/-- `AnalyseService._create_chronological_analysis`. -/
def createChronologicalAnalysis (besoins_matiere : List Besoin)
    (stock_initial : ℚ) : AnalyseChronologique :=
  let besoins_tries := sortByEcheance besoins_matiere
  let t := chronoAnalysisLoop 0 stock_initial none besoins_tries
  { couverture_chronologique := t.1
    premier_besoin_non_couvert := t.2.1
    stock_initial := stock_initial
    stock_final := t.2.2 }

/-- The fresh `Besoin` copies built in the final loop of
`AnalyseService.analyze_besoins`: every field of the original event is
preserved and only `etat` is replaced by the computed classification. -/
def besoinCopies (results : List CouvertureResult) : List Besoin :=
  results.map (fun r =>
    { id := r.besoin.id
      matiere := r.besoin.matiere
      quantite := r.besoin.quantite
      echeance := r.besoin.echeance
      etat := stringToEtat r.etat_couverture
      lot := r.besoin.lot })

/-- `AnalyseService.analyze_besoins`, in state-passing style: the returned
state is the repository state after the call (the method issues only
reads, so it hands the incoming collections back untouched), paired with
the list of classified copies re-sorted by due date. -/
def analyzeBesoins (s : RepoState) : RepoState × List Besoin :=
  let all_besoins := getBesoinsByEtat s Etat.INCONNU
  let besoins_par_matiere := groupBesoinsByMatiere all_besoins
  let besoins_analyses :=
    besoins_par_matiere.foldl
      (fun acc g =>
        let stock_disponible := getCoverageStockForMatiere s g.1
        let couverture_results := analyzeMatiereChronologicalCoverage g.2 stock_disponible
        acc ++ besoinCopies couverture_results)
      []
  (s, sortByEcheance besoins_analyses)

/-- The `CouvertureBesoin` pydantic model (`models/analyse.py`). -/
structure CouvertureBesoin where
  besoin : Besoin
  quantite_besoin : ℚ
  quantite_stock_internes : ℚ
  stocks_externes : List (String × ℚ)
  quantite_receptions : ℚ
  quantite_rappatriements : ℚ
  quantite_disponible_couverture : ℚ
  etat_couverture : Etat
  pourcentage_couverture : ℚ
  stock_restant_apres_consommation : ℚ
deriving DecidableEq, Repr

/-- The `AnalyseMatiere` pydantic model (`models/analyse.py`). -/
structure AnalyseMatiere where
  code_mp : String
  nom_matiere : String
  total_besoins : ℕ
  total_couverts : ℕ
  taux_couverture : ℚ
  quantite_besoin_totale : ℚ
  quantite_stock_internes : ℚ
  stocks_externes : List (String × ℚ)
  quantite_receptions : ℚ
  quantite_rappatriements : ℚ
  quantite_totale_disponible : ℚ
  stock_couverture_disponible : ℚ
  stock_manquant : ℚ
  couverture_par_besoin : List CouvertureBesoin
  analyse_chronologique : AnalyseChronologique
deriving DecidableEq, Repr

/-- The `StatistiquesMatiere` pydantic model (`models/analyse.py`). -/
structure StatistiquesMatiere where
  nom : String
  total_besoins : ℕ
  total_couverts : ℕ
  total_partiels : ℕ
  total_non_couverts : ℕ
  quantite_besoin_totale : ℚ
  quantite_disponible_totale : ℚ
  stocks_externes : List (String × ℚ)
  quantite_rappatriements : ℚ
  taux_couverture : ℚ
  taux_partiel : ℚ
  taux_non_couvert : ℚ
deriving DecidableEq, Repr

/-- The `AnalyseCouverture` pydantic model (`models/analyse.py`); the two
`Dict[str, ...]` fields are insertion-ordered association lists. -/
structure AnalyseCouverture where
  horizon_jours : ℤ
  date_initiale : ℤ
  date_limite : ℤ
  analyse_par_matiere : List (String × AnalyseMatiere)
  statistiques_par_matiere : List (String × StatistiquesMatiere)
  analyse_matiere : Option AnalyseMatiere
deriving DecidableEq, Repr

/-- `stocks_externes_dict[stock.magasin] = dict.get(stock.magasin, 0) +
stock.quantite`: in-place update of an existing key, append of a new one. -/
def addToQtyMap (m : List (String × ℚ)) (k : String) (q : ℚ) :
    List (String × ℚ) :=
  match m with
  | [] => [(k, q)]
  | (k', v) :: rest =>
      if k' = k then (k', v + q) :: rest
      else (k', v) :: addToQtyMap rest k q

/-- The intermediate dict built by `AnalyseService._analyze_single_matiere`. -/
structure SingleMatiereData where
  code_mp : String
  nom_matiere : String
  total_besoins : ℕ
  total_couverts : ℕ
  taux_couverture : ℚ
  quantite_besoin_totale : ℚ
  quantite_stock_internes : ℚ
  stocks_externes : List (String × ℚ)
  quantite_receptions : ℚ
  quantite_rappatriements : ℚ
  quantite_totale_disponible : ℚ
  stock_couverture_disponible : ℚ
  stock_manquant : ℚ
  couverture_par_besoin : List CouvertureResult
  analyse_chronologique : AnalyseChronologique
deriving DecidableEq, Repr

/-- `AnalyseService._analyze_single_matiere`. -/
def analyzeSingleMatiere (s : RepoState) (code_mp : String)
    (besoins_matiere : List Besoin) : SingleMatiereData :=
  let stocks_internes := getInternalStocksByMatiere s code_mp
  let stocks_externes := getExternalStocksByMatiere s code_mp
  let receptions_en_cours := getReceptionsEnCours s
  let rappatriements_en_cours := getRappatriementsByMatiere s code_mp
  let quantite_stock_internes := (stocks_internes.map (·.quantite)).sum
  let quantite_rappatriements :=
    calculateRappatriementsQuantity code_mp rappatriements_en_cours
  let quantite_receptions :=
    ((receptions_en_cours.filter (fun r => r.matiere.code_mp = code_mp)).map
      (·.quantite)).sum
  let stocks_externes_dict :=
    stocks_externes.foldl (fun m st => addToQtyMap m st.magasin st.quantite) []
  let stock_couverture := quantite_stock_internes + quantite_rappatriements
  let couverture_results :=
    analyzeMatiereChronologicalCoverage besoins_matiere stock_couverture
  let quantite_besoin_totale := (besoins_matiere.map (·.quantite)).sum
  let total_besoins := besoins_matiere.length
  let total_couverts :=
    (couverture_results.filter (fun r => r.etat_couverture = CovState.COUVERT)).length
  let taux_couverture :=
    if total_besoins > 0 then (total_couverts : ℚ) / (total_besoins : ℚ) * 100 else 0
  let analyse_chrono := createChronologicalAnalysis besoins_matiere stock_couverture
  { code_mp := code_mp
    nom_matiere :=
      match besoins_matiere with
      | [] => "Matière inconnue"
      | b :: _ => b.matiere.nom
    total_besoins := total_besoins
    total_couverts := total_couverts
    taux_couverture := taux_couverture
    quantite_besoin_totale := quantite_besoin_totale
    quantite_stock_internes := quantite_stock_internes
    stocks_externes := stocks_externes_dict
    quantite_receptions := quantite_receptions
    quantite_rappatriements := quantite_rappatriements
    quantite_totale_disponible :=
      quantite_stock_internes + ((stocks_externes_dict.map (·.2)).sum)
        + quantite_receptions + quantite_rappatriements
    stock_couverture_disponible := stock_couverture
    stock_manquant := max 0 (quantite_besoin_totale - stock_couverture)
    couverture_par_besoin := couverture_results
    analyse_chronologique := analyse_chrono }

/-- `AnalyseService._create_analyse_matiere_pydantic`. -/
def createAnalyseMatierePydantic (d : SingleMatiereData) : AnalyseMatiere :=
  { code_mp := d.code_mp
    nom_matiere := d.nom_matiere
    total_besoins := d.total_besoins
    total_couverts := d.total_couverts
    taux_couverture := d.taux_couverture
    quantite_besoin_totale := d.quantite_besoin_totale
    quantite_stock_internes := d.quantite_stock_internes
    stocks_externes := d.stocks_externes
    quantite_receptions := d.quantite_receptions
    quantite_rappatriements := d.quantite_rappatriements
    quantite_totale_disponible := d.quantite_totale_disponible
    stock_couverture_disponible := d.stock_couverture_disponible
    stock_manquant := d.stock_manquant
    couverture_par_besoin :=
      d.couverture_par_besoin.map (fun r =>
        { besoin := r.besoin
          quantite_besoin := r.besoin.quantite
          quantite_stock_internes := d.quantite_stock_internes
          stocks_externes := d.stocks_externes
          quantite_receptions := d.quantite_receptions
          quantite_rappatriements := d.quantite_rappatriements
          quantite_disponible_couverture := r.quantite_disponible
          etat_couverture := stringToEtat r.etat_couverture
          pourcentage_couverture := r.pourcentage_couverture
          stock_restant_apres_consommation := r.stock_restant })
    analyse_chronologique := d.analyse_chronologique }

/-- The fresh zero-valued stats record created on a material's first
couverture in `_calculate_matiere_stats_from_couvertures`. -/
def initStats (nom : String) : StatistiquesMatiere :=
  { nom := nom
    total_besoins := 0
    total_couverts := 0
    total_partiels := 0
    total_non_couverts := 0
    quantite_besoin_totale := 0
    quantite_disponible_totale := 0
    stocks_externes := []
    quantite_rappatriements := 0
    taux_couverture := 0
    taux_partiel := 0
    taux_non_couvert := 0 }

/-- The per-couverture mutation of a material's stats record in
`_calculate_matiere_stats_from_couvertures`. -/
def updateStats (st : StatistiquesMatiere) (c : CouvertureBesoin) :
    StatistiquesMatiere :=
  let st := { st with
    total_besoins := st.total_besoins + 1
    quantite_besoin_totale := st.quantite_besoin_totale + c.quantite_besoin
    quantite_disponible_totale :=
      st.quantite_disponible_totale + c.quantite_disponible_couverture }
  let st :=
    if st.quantite_rappatriements = 0 then
      { st with quantite_rappatriements := c.quantite_rappatriements }
    else st
  let st :=
    if st.stocks_externes = [] then
      { st with stocks_externes := c.stocks_externes }
    else st
  if c.etat_couverture = Etat.COUVERT then
    { st with total_couverts := st.total_couverts + 1 }
  else if c.etat_couverture = Etat.PARTIEL then
    { st with total_partiels := st.total_partiels + 1 }
  else
    { st with total_non_couverts := st.total_non_couverts + 1 }

/-- Routing of one couverture into the keyed stats map (create on first
occurrence of the material, update in place afterwards). -/
def updateStatsMap (m : List (String × StatistiquesMatiere))
    (c : CouvertureBesoin) : List (String × StatistiquesMatiere) :=
  match m with
  | [] => [(c.besoin.matiere.code_mp, updateStats (initStats c.besoin.matiere.nom) c)]
  | (k, st) :: rest =>
      if k = c.besoin.matiere.code_mp then (k, updateStats st c) :: rest
      else (k, st) :: updateStatsMap rest c

/-- The final percentage pass of `_calculate_matiere_stats_from_couvertures`. -/
def finalizeStats (st : StatistiquesMatiere) : StatistiquesMatiere :=
  if st.total_besoins > 0 then
    { st with
      taux_couverture := (st.total_couverts : ℚ) / (st.total_besoins : ℚ) * 100
      taux_partiel := (st.total_partiels : ℚ) / (st.total_besoins : ℚ) * 100
      taux_non_couvert := (st.total_non_couverts : ℚ) / (st.total_besoins : ℚ) * 100 }
  else st

/-- `AnalyseService._calculate_matiere_stats_from_couvertures`. -/
def calculateMatiereStatsFromCouvertures (couvertures : List CouvertureBesoin) :
    List (String × StatistiquesMatiere) :=
  (couvertures.foldl updateStatsMap []).map (fun p => (p.1, finalizeStats p.2))

/-- `AnalyseService.analyze_coverage` (the start date is taken already
normalized, as `_normalize_date` only strips time-zone information). -/
def analyzeCoverage (s : RepoState) (date_initiale : ℤ) (horizon_days : ℤ) :
    AnalyseCouverture :=
  let date_limite := date_initiale + horizon_days
  let besoins_par_matiere := getBesoinsActuelsByHorizonGrouped s horizon_days date_initiale
  let analyses_matiere :=
    besoins_par_matiere.map (fun g =>
      (g.1, createAnalyseMatierePydantic (analyzeSingleMatiere s g.1 g.2)))
  let all_couvertures :=
    analyses_matiere.foldl (fun acc a => acc ++ a.2.couverture_par_besoin) []
  let stats_par_matiere := calculateMatiereStatsFromCouvertures all_couvertures
  { horizon_jours := horizon_days
    date_initiale := date_initiale
    date_limite := date_limite
    analyse_par_matiere := analyses_matiere
    statistiques_par_matiere := stats_par_matiere
    analyse_matiere := none }

/-- `AnalyseService._create_empty_analyse`. -/
def createEmptyAnalyse (code_mp : String) (date_initiale : ℤ)
    (horizon_days : ℤ) : AnalyseCouverture :=
  let analyse_matiere_vide : AnalyseMatiere :=
    { code_mp := code_mp
      nom_matiere := "Matière inconnue"
      total_besoins := 0
      total_couverts := 0
      taux_couverture := 0
      quantite_besoin_totale := 0
      quantite_stock_internes := 0
      stocks_externes := []
      quantite_receptions := 0
      quantite_rappatriements := 0
      quantite_totale_disponible := 0
      stock_couverture_disponible := 0
      stock_manquant := 0
      couverture_par_besoin := []
      analyse_chronologique :=
        { couverture_chronologique := []
          premier_besoin_non_couvert := none
          stock_initial := 0
          stock_final := 0 } }
  { horizon_jours := horizon_days
    date_initiale := date_initiale
    date_limite := date_initiale + horizon_days
    analyse_par_matiere := []
    statistiques_par_matiere := []
    analyse_matiere := some analyse_matiere_vide }

/-- `AnalyseService.analyze_matiere_coverage`. -/
def analyzeMatiereCoverage (s : RepoState) (code_mp : String)
    (date_initiale : ℤ) (horizon_days : ℤ) : AnalyseCouverture :=
  let besoins_matiere :=
    getBesoinsActuelsByMatiereAndHorizon s code_mp horizon_days date_initiale
  if besoins_matiere = [] then
    createEmptyAnalyse code_mp date_initiale horizon_days
  else
    let analyse_matiere_pydantic :=
      createAnalyseMatierePydantic (analyzeSingleMatiere s code_mp besoins_matiere)
    { horizon_jours := horizon_days
      date_initiale := date_initiale
      date_limite := date_initiale + horizon_days
      analyse_par_matiere := []
      statistiques_par_matiere := []
      analyse_matiere := some analyse_matiere_pydantic }

/-!
Spec-side definitions.  `specStep`, `specAllocLoop` and
`specChronologicalAllocator` transcribe the claimed per-event rule of the
chronological allocator (spec §4.2) word for word, to be compared with the
source embedding `analyzeMatiereChronologicalCoverage`.
-/

/-- One spec-side allocation step: classification, quantity available for
this event, coverage percentage, and the new running supply, per the
claimed branch rules. -/
structure SpecStep where
  classification : CovState
  available : ℚ
  percentage : ℚ
  new_supply : ℚ
deriving DecidableEq, Repr

/-- The claimed per-event rule: `covered` consumes the full quantity,
`partial` consumes the whole remaining pool, `uncovered` leaves the
running supply unchanged. -/
def specStep (running_supply : ℚ) (b : Besoin) : SpecStep :=
  if running_supply ≥ b.quantite then
    { classification := CovState.COUVERT
      available := b.quantite
      percentage := 100
      new_supply := running_supply - b.quantite }
  else if running_supply > 0 then
    { classification := CovState.PARTIEL
      available := running_supply
      percentage := running_supply / b.quantite * 100
      new_supply := 0 }
  else
    { classification := CovState.NON_COUVERT
      available := 0
      percentage := 0
      new_supply := running_supply }

/-- Spec-side allocation over an (already sorted) event list. -/
def specAllocLoop (running_supply : ℚ) : List Besoin → List CouvertureResult × ℚ
  | [] => ([], running_supply)
  | b :: rest =>
      let r := specStep running_supply b
      let t := specAllocLoop r.new_supply rest
      ({ besoin := b
         etat_couverture := r.classification
         quantite_disponible := r.available
         pourcentage_couverture := r.percentage
         stock_restant := r.new_supply } :: t.1, t.2)

/-- The claimed allocator: sort by due date (stable), then apply the
claimed per-event rule in order. -/
def specChronologicalAllocator (events : List Besoin) (initial_supply : ℚ) :
    List CouvertureResult × ℚ :=
  specAllocLoop initial_supply (sortByEcheance events)

/-- Sum of the net weights of the matching line items of one shipment
(filter-style restatement of the inner loop of
`_calculate_rappatriements_quantity`). -/
def produitsMatchSum (code_mp : String) (ps : List ProduitRappatriement) : ℚ :=
  ((ps.filter (produitMatches code_mp)).map (·.poids_net)).sum

/-- All demand events appearing in a by-material grouping, in order. -/
def flattenGroups (groups : List (String × List Besoin)) : List Besoin :=
  (groups.map Prod.snd).join

lemma specStep_eq_calculate (s : ℚ) (b : Besoin) :
    specStep s b =
      { classification := (calculateCoverageState s b.quantite).1
        available := (calculateCoverageState s b.quantite).2.1
        percentage := (calculateCoverageState s b.quantite).2.2
        new_supply :=
          if (calculateCoverageState s b.quantite).1 = CovState.COUVERT then
            s - b.quantite
          else if (calculateCoverageState s b.quantite).1 = CovState.PARTIEL then 0
          else s } := by
  simp only [specStep, calculateCoverageState]
  split_ifs <;> simp_all

lemma chronoCoverageStep_eq (acc : List CouvertureResult) (s : ℚ) (b : Besoin) :
    chronoCoverageStep (acc, s) b =
      (acc ++ [{ besoin := b
                 etat_couverture := (specStep s b).classification
                 quantite_disponible := (specStep s b).available
                 pourcentage_couverture := (specStep s b).percentage
                 stock_restant := (specStep s b).new_supply }],
       (specStep s b).new_supply) := by
  simp only [chronoCoverageStep, specStep_eq_calculate]

lemma foldl_chronoCoverageStep (l : List Besoin) :
    ∀ (acc : List CouvertureResult) (s : ℚ),
      l.foldl chronoCoverageStep (acc, s) =
        (acc ++ (specAllocLoop s l).1, (specAllocLoop s l).2) := by
  induction l with
  | nil => intro acc s; simp [specAllocLoop]
  | cons b rest ih =>
      intro acc s
      rw [List.foldl_cons, chronoCoverageStep_eq, ih]
      simp [specAllocLoop]

lemma chronoCoverageLoop_eq_specAllocLoop (s : ℚ) (l : List Besoin) :
    chronoCoverageLoop s l = specAllocLoop s l := by
  unfold chronoCoverageLoop
  rw [foldl_chronoCoverageStep]
  simp

lemma analyzeMatiereChronologicalCoverage_eq_spec (events : List Besoin)
    (initial_supply : ℚ) :
    analyzeMatiereChronologicalCoverage events initial_supply =
      (specChronologicalAllocator events initial_supply).1 := by
  unfold analyzeMatiereChronologicalCoverage specChronologicalAllocator
  rw [chronoCoverageLoop_eq_specAllocLoop]

lemma insertByEcheance_perm (b : Besoin) (l : List Besoin) :
    (insertByEcheance b l).Perm (b :: l) := by
  induction l with
  | nil => exact List.Perm.refl _
  | cons c rest ih =>
      unfold insertByEcheance
      split
      · exact List.Perm.refl _
      · exact (ih.cons c).trans (List.Perm.swap b c rest)

lemma sortByEcheance_perm (l : List Besoin) : (sortByEcheance l).Perm l := by
  induction l with
  | nil => exact List.Perm.refl _
  | cons b rest ih =>
      exact (insertByEcheance_perm b (sortByEcheance rest)).trans (ih.cons b)

lemma mem_insertByEcheance {x b : Besoin} {l : List Besoin} :
    x ∈ insertByEcheance b l ↔ x = b ∨ x ∈ l := by
  rw [(insertByEcheance_perm b l).mem_iff]
  simp

lemma insertByEcheance_sorted (b : Besoin) (l : List Besoin)
    (h : l.Pairwise (fun a c : Besoin => a.echeance ≤ c.echeance)) :
    (insertByEcheance b l).Pairwise (fun a c : Besoin => a.echeance ≤ c.echeance) := by
  induction l with
  | nil => simp [insertByEcheance]
  | cons c rest ih =>
      rw [List.pairwise_cons] at h
      unfold insertByEcheance
      split
      · rename_i hbc
        refine List.Pairwise.cons ?_ (List.Pairwise.cons h.1 h.2)
        intro x hx
        rcases List.mem_cons.mp hx with hx | hx
        · subst hx; exact hbc
        · exact le_trans hbc (h.1 x hx)
      · rename_i hbc
        refine List.Pairwise.cons ?_ (ih h.2)
        intro x hx
        rcases mem_insertByEcheance.mp hx with hx | hx
        · subst hx; exact le_of_not_le hbc
        · exact h.1 x hx

lemma sortByEcheance_sorted (l : List Besoin) :
    (sortByEcheance l).Pairwise (fun a c : Besoin => a.echeance ≤ c.echeance) := by
  induction l with
  | nil => simp [sortByEcheance]
  | cons b rest ih => exact insertByEcheance_sorted b _ ih

lemma filter_insertByEcheance (b : Besoin) (l : List Besoin) (d : ℤ) :
    (insertByEcheance b l).filter (fun c => c.echeance == d) =
      (if b.echeance == d then [b] else []) ++
        l.filter (fun c => c.echeance == d) := by
  induction l with
  | nil =>
      by_cases hb : b.echeance = d <;>
        simp [insertByEcheance, List.filter_cons, hb]
  | cons c rest ih =>
      unfold insertByEcheance
      split
      · rename_i hbc
        by_cases hb : b.echeance = d <;> by_cases hc : c.echeance = d <;>
          simp [List.filter_cons, hb, hc]
      · rename_i hbc
        simp only [List.filter_cons, ih]
        by_cases hc : c.echeance = d
        · by_cases hb : b.echeance = d
          · exfalso
            apply hbc
            rw [hb, hc]
          · simp [hc, hb]
        · simp [hc]

lemma sortByEcheance_filter (l : List Besoin) (d : ℤ) :
    (sortByEcheance l).filter (fun c => c.echeance == d) =
      l.filter (fun c => c.echeance == d) := by
  induction l with
  | nil => rfl
  | cons b rest ih =>
      show (insertByEcheance b (sortByEcheance rest)).filter _ = _
      rw [filter_insertByEcheance, ih, List.filter_cons]
      split <;> simp

/-- C1: for every list of demand events (all quantities ≥ 0) and every
initial supply ≥ 0, the chronological allocator processes the events
sorted by due date ascending (stably for ties) and applies, per event in
that order, the claimed branch rules: `covered` (full quantity available,
100%, supply decremented), `partial` (whole remaining pool available,
`supply/quantity*100`%, supply set to 0), `uncovered` (0 available, 0%,
supply unchanged).  The source allocator equals the spec-side allocator
on the stably sorted list; the last two conjuncts state sortedness and
stability (ties keep their input order) of the sort both use. -/
theorem C1_chronological_allocator_refines_spec (events : List Besoin)
    (initial_supply : ℚ) (hq : ∀ b ∈ events, 0 ≤ b.quantite)
    (hs : 0 ≤ initial_supply) :
    analyzeMatiereChronologicalCoverage events initial_supply =
      (specChronologicalAllocator events initial_supply).1 ∧
    (sortByEcheance events).Pairwise
      (fun a c : Besoin => a.echeance ≤ c.echeance) ∧
    (sortByEcheance events).Perm events ∧
    ∀ d : ℤ, (sortByEcheance events).filter (fun c => c.echeance == d) =
      events.filter (fun c => c.echeance == d) := by
  refine ⟨analyzeMatiereChronologicalCoverage_eq_spec events initial_supply,
    sortByEcheance_sorted events, sortByEcheance_perm events,
    fun d => sortByEcheance_filter events d⟩

/-- Witness for C1 at the spec's Scenario A (supply 100, quantities
40/50/30 due on days 1/2/3, given out of order). -/
theorem C1_witness :
    analyzeMatiereChronologicalCoverage
        [{ id := "3", matiere := { code_mp := "M1", nom := "M one" },
           quantite := 30, echeance := 3, etat := Etat.INCONNU, lot := "" },
         { id := "1", matiere := { code_mp := "M1", nom := "M one" },
           quantite := 40, echeance := 1, etat := Etat.INCONNU, lot := "" },
         { id := "2", matiere := { code_mp := "M1", nom := "M one" },
           quantite := 50, echeance := 2, etat := Etat.INCONNU, lot := "" }] 100 =
      (specChronologicalAllocator
        [{ id := "3", matiere := { code_mp := "M1", nom := "M one" },
           quantite := 30, echeance := 3, etat := Etat.INCONNU, lot := "" },
         { id := "1", matiere := { code_mp := "M1", nom := "M one" },
           quantite := 40, echeance := 1, etat := Etat.INCONNU, lot := "" },
         { id := "2", matiere := { code_mp := "M1", nom := "M one" },
           quantite := 50, echeance := 2, etat := Etat.INCONNU, lot := "" }] 100).1 :=
  (C1_chronological_allocator_refines_spec _ 100
    (by intro b hb; fin_cases hb <;> norm_num) (by norm_num)).1

/-- C7: the allocator never divides by zero: with supply ≥ 0 and quantity
≥ 0, the `partial` branch (the only one computing the division) forces
`0 < supply < quantity`, hence `quantity > 0`; the percentage is the
constant 0 for `uncovered` and 100 for `covered`; and an event with
quantity 0 against supply 0 is classified `covered` with available 0 and
percentage 100. -/
theorem C7_no_division_by_zero (stock q : ℚ) (hs : 0 ≤ stock) (hq : 0 ≤ q) :
    ((calculateCoverageState stock q).1 = CovState.PARTIEL →
      0 < stock ∧ stock < q ∧ 0 < q) ∧
    ((calculateCoverageState stock q).1 = CovState.NON_COUVERT →
      (calculateCoverageState stock q).2.2 = 0) ∧
    ((calculateCoverageState stock q).1 = CovState.COUVERT →
      (calculateCoverageState stock q).2.2 = 100) ∧
    calculateCoverageState 0 0 = (CovState.COUVERT, 0, 100) := by
  unfold calculateCoverageState
  refine ⟨?_, ?_, ?_, by norm_num⟩ <;>
    · split_ifs with h1 h2 <;> intro he <;> simp_all <;> linarith

/-- Witness for C7 at supply 1, quantity 2 (the `partial` branch). -/
theorem C7_witness :
    ((calculateCoverageState 1 2).1 = CovState.PARTIEL →
      0 < (1 : ℚ) ∧ (1 : ℚ) < 2 ∧ 0 < (2 : ℚ)) ∧
    ((calculateCoverageState 1 2).1 = CovState.NON_COUVERT →
      (calculateCoverageState 1 2).2.2 = 0) ∧
    ((calculateCoverageState 1 2).1 = CovState.COUVERT →
      (calculateCoverageState 1 2).2.2 = 100) ∧
    calculateCoverageState 0 0 = (CovState.COUVERT, 0, 100) :=
  C7_no_division_by_zero 1 2 (by norm_num) (by norm_num)

lemma specStep_new_supply_nonneg (s : ℚ) (b : Besoin) (hs : 0 ≤ s) :
    0 ≤ (specStep s b).new_supply := by
  unfold specStep
  split_ifs <;> simp_all <;> linarith

lemma specAllocLoop_stock_nonneg (l : List Besoin) :
    ∀ s : ℚ, (∀ b ∈ l, 0 ≤ b.quantite) → 0 ≤ s →
      (∀ r ∈ (specAllocLoop s l).1, 0 ≤ r.stock_restant) ∧
        0 ≤ (specAllocLoop s l).2 := by
  induction l with
  | nil =>
      intro s _ hs
      exact ⟨by simp [specAllocLoop], by simpa [specAllocLoop] using hs⟩
  | cons b rest ih =>
      intro s hq hs
      have hns := specStep_new_supply_nonneg s b hs
      have ihh := ih (specStep s b).new_supply
        (fun x hx => hq x (List.mem_cons_of_mem _ hx)) hns
      constructor
      · intro r hr
        simp only [specAllocLoop] at hr
        rcases List.mem_cons.mp hr with h | h
        · subst h; exact hns
        · exact ihh.1 r h
      · simp only [specAllocLoop]
        exact ihh.2

lemma chronoAnalysisLoop_consistent (l : List Besoin) :
    ∀ (i : ℕ) (s : ℚ) (prem : Option PremierBesoinNonCouvert),
      ∀ e ∈ (chronoAnalysisLoop i s prem l).1,
        e.etat = (calculateCoverageState e.stock_avant e.quantite_besoin).1 ∧
        e.stock_apres =
          (if e.etat = CovState.COUVERT then e.stock_avant - e.quantite_besoin
           else if e.etat = CovState.PARTIEL then 0 else e.stock_avant) := by
  induction l with
  | nil => intro i s prem e he; simp [chronoAnalysisLoop] at he
  | cons b rest ih =>
      intro i s prem e he
      simp only [chronoAnalysisLoop] at he
      rcases List.mem_cons.mp he with h | h
      · subst h
        exact ⟨rfl, rfl⟩
      · exact ih _ _ _ e h

lemma next_stock_nonneg (s q : ℚ) (hs : 0 ≤ s) :
    0 ≤ (if (calculateCoverageState s q).1 = CovState.COUVERT then s - q
         else if (calculateCoverageState s q).1 = CovState.PARTIEL then 0
         else s) := by
  unfold calculateCoverageState
  split_ifs <;> simp_all <;> linarith

lemma chronoAnalysisLoop_nonneg (l : List Besoin) :
    ∀ (i : ℕ) (s : ℚ) (prem : Option PremierBesoinNonCouvert),
      (∀ b ∈ l, 0 ≤ b.quantite) → 0 ≤ s →
      (∀ e ∈ (chronoAnalysisLoop i s prem l).1,
        0 ≤ e.stock_avant ∧ 0 ≤ e.stock_apres) ∧
      0 ≤ (chronoAnalysisLoop i s prem l).2.2 := by
  induction l with
  | nil =>
      intro i s prem _ hs
      exact ⟨by simp [chronoAnalysisLoop], by simpa [chronoAnalysisLoop] using hs⟩
  | cons b rest ih =>
      intro i s prem hq hs
      have hq' : ∀ x ∈ rest, 0 ≤ x.quantite :=
        fun x hx => hq x (List.mem_cons_of_mem _ hx)
      have hnext := next_stock_nonneg s b.quantite hs
      constructor
      · intro e he
        simp only [chronoAnalysisLoop] at he
        rcases List.mem_cons.mp he with h | h
        · subst h; exact ⟨hs, hnext⟩
        · exact (ih _ _ _ hq' hnext).1 e h
      · simp only [chronoAnalysisLoop]
        exact (ih _ _ _ hq' hnext).2

lemma calcState_uncovered_char (s q : ℚ) (hs : 0 ≤ s) :
    ((calculateCoverageState s q).1 = CovState.NON_COUVERT → s = 0) ∧
    (s = 0 → 0 < q → (calculateCoverageState s q).1 = CovState.NON_COUVERT) := by
  unfold calculateCoverageState
  constructor
  · split_ifs with h1 h2 <;> intro h <;> simp_all <;> linarith
  · intro h hq2
    subst h
    split_ifs with h1 h2
    · exact absurd (le_trans hq2.le h1) (by linarith)
    · exact absurd h2 (by linarith)
    · rfl

/-- C10 counterexample: one event of quantity 0 processed with supply 0 is
classified `covered` although the running supply before it is 0, so the
`uncovered` branch does not occur "exactly when the running supply equals
0". -/
theorem C10_counterexample :
    ¬ (∀ e ∈ (createChronologicalAnalysis
          [{ id := "b0", matiere := { code_mp := "M0", nom := "M zero" },
             quantite := 0, echeance := 0, etat := Etat.INCONNU, lot := "" }]
          0).couverture_chronologique,
        (e.etat = CovState.NON_COUVERT ↔ e.stock_avant = 0)) := by
  decide

/-- C10 (amended): with all quantities ≥ 0 and initial supply ≥ 0, every
recorded running supply (`stock_restant` in the per-event results,
`stock_avant`/`stock_apres` in the ledger) is ≥ 0, the final supply is
≥ 0, and the `uncovered` branch occurs only when the running supply
equals 0 — conversely, an event with positive quantity processed with
running supply 0 is classified `uncovered`.  (The claimed "exactly when"
fails for zero-quantity events, see the counterexample.) -/
theorem C10_running_supply_nonneg (besoins : List Besoin) (stock : ℚ)
    (hq : ∀ b ∈ besoins, 0 ≤ b.quantite) (hs : 0 ≤ stock) :
    (∀ r ∈ analyzeMatiereChronologicalCoverage besoins stock,
        0 ≤ r.stock_restant) ∧
    (∀ e ∈ (createChronologicalAnalysis besoins stock).couverture_chronologique,
        0 ≤ e.stock_avant ∧ 0 ≤ e.stock_apres ∧
        (e.etat = CovState.NON_COUVERT → e.stock_avant = 0) ∧
        (e.stock_avant = 0 → 0 < e.quantite_besoin →
          e.etat = CovState.NON_COUVERT)) ∧
    0 ≤ (createChronologicalAnalysis besoins stock).stock_final := by
  have hq' : ∀ b ∈ sortByEcheance besoins, 0 ≤ b.quantite :=
    fun b hb => hq b ((sortByEcheance_perm besoins).mem_iff.mp hb)
  refine ⟨?_, ?_, ?_⟩
  · intro r hr
    rw [analyzeMatiereChronologicalCoverage_eq_spec] at hr
    exact (specAllocLoop_stock_nonneg _ _ hq' hs).1 r hr
  · intro e he
    have hcons := chronoAnalysisLoop_consistent _ 0 stock none e he
    have hnn := (chronoAnalysisLoop_nonneg _ 0 stock none hq' hs).1 e he
    refine ⟨hnn.1, hnn.2, ?_, ?_⟩
    · intro hnc
      exact (calcState_uncovered_char e.stock_avant e.quantite_besoin hnn.1).1
        (hcons.1 ▸ hnc)
    · intro h0 hqe
      rw [hcons.1]
      exact (calcState_uncovered_char e.stock_avant e.quantite_besoin hnn.1).2 h0 hqe
  · exact (chronoAnalysisLoop_nonneg _ 0 stock none hq' hs).2

/-- Witness for C10 (amended) at Scenario A. -/
theorem C10_witness :
    0 ≤ (createChronologicalAnalysis
        [{ id := "1", matiere := { code_mp := "M1", nom := "M one" },
           quantite := 40, echeance := 1, etat := Etat.INCONNU, lot := "" },
         { id := "2", matiere := { code_mp := "M1", nom := "M one" },
           quantite := 50, echeance := 2, etat := Etat.INCONNU, lot := "" },
         { id := "3", matiere := { code_mp := "M1", nom := "M one" },
           quantite := 30, echeance := 3, etat := Etat.INCONNU, lot := "" }]
        100).stock_final :=
  (C10_running_supply_nonneg _ 100
    (by intro b hb; fin_cases hb <;> norm_num) (by norm_num)).2.2

lemma chronoAnalysisLoop_cons_covered (i : ℕ) (s : ℚ)
    (prem : Option PremierBesoinNonCouvert) (b : Besoin) (rest : List Besoin)
    (hc : (calculateCoverageState s b.quantite).1 = CovState.COUVERT) :
    chronoAnalysisLoop i s prem (b :: rest) =
      ({ echeance := b.echeance
         quantite_besoin := b.quantite
         stock_avant := s
         stock_apres := s - b.quantite
         etat := CovState.COUVERT } ::
          (chronoAnalysisLoop (i + 1) (s - b.quantite) prem rest).1,
       (chronoAnalysisLoop (i + 1) (s - b.quantite) prem rest).2.1,
       (chronoAnalysisLoop (i + 1) (s - b.quantite) prem rest).2.2) := by
  simp [chronoAnalysisLoop, hc]

lemma chronoAnalysisLoop_cons_notcov (i : ℕ) (s : ℚ) (b : Besoin)
    (rest : List Besoin)
    (hc : (calculateCoverageState s b.quantite).1 ≠ CovState.COUVERT) :
    chronoAnalysisLoop i s none (b :: rest) =
      ({ echeance := b.echeance
         quantite_besoin := b.quantite
         stock_avant := s
         stock_apres :=
           if (calculateCoverageState s b.quantite).1 = CovState.PARTIEL then 0
           else s
         etat := (calculateCoverageState s b.quantite).1 } ::
          (chronoAnalysisLoop (i + 1)
            (if (calculateCoverageState s b.quantite).1 = CovState.PARTIEL then 0
             else s)
            (some { index := i
                    echeance := b.echeance
                    quantite_besoin := b.quantite
                    stock_restant := s
                    quantite_manquante := b.quantite - s }) rest).1,
       (chronoAnalysisLoop (i + 1)
          (if (calculateCoverageState s b.quantite).1 = CovState.PARTIEL then 0
           else s)
          (some { index := i
                  echeance := b.echeance
                  quantite_besoin := b.quantite
                  stock_restant := s
                  quantite_manquante := b.quantite - s }) rest).2.1,
       (chronoAnalysisLoop (i + 1)
          (if (calculateCoverageState s b.quantite).1 = CovState.PARTIEL then 0
           else s)
          (some { index := i
                  echeance := b.echeance
                  quantite_besoin := b.quantite
                  stock_restant := s
                  quantite_manquante := b.quantite - s }) rest).2.2) := by
  simp [chronoAnalysisLoop, hc]

lemma chronoAnalysisLoop_premier_const (l : List Besoin) :
    ∀ (i : ℕ) (s : ℚ) (p : PremierBesoinNonCouvert),
      (chronoAnalysisLoop i s (some p) l).2.1 = some p := by
  induction l with
  | nil => intro i s p; rfl
  | cons b rest ih =>
      intro i s p
      simp only [chronoAnalysisLoop]
      simpa using ih _ _ p

lemma chronoAnalysisLoop_premier_none_iff (l : List Besoin) :
    ∀ (i : ℕ) (s : ℚ),
      ((chronoAnalysisLoop i s none l).2.1 = none ↔
        ∀ e ∈ (chronoAnalysisLoop i s none l).1, e.etat = CovState.COUVERT) := by
  induction l with
  | nil => intro i s; simp [chronoAnalysisLoop]
  | cons b rest ih =>
      intro i s
      by_cases hc : (calculateCoverageState s b.quantite).1 = CovState.COUVERT
      · rw [chronoAnalysisLoop_cons_covered i s none b rest hc]
        simp only [List.mem_cons]
        constructor
        · intro hnone e he
          rcases he with he | he
          · subst he; rfl
          · exact (ih (i + 1) (s - b.quantite)).mp hnone e he
        · intro hall
          exact (ih (i + 1) (s - b.quantite)).mpr (fun e he => hall e (Or.inr he))
      · rw [chronoAnalysisLoop_cons_notcov i s b rest hc]
        simp only [List.mem_cons]
        constructor
        · intro hnone
          rw [chronoAnalysisLoop_premier_const] at hnone
          exact absurd hnone (by simp)
        · intro hall
          exact absurd (hall _ (Or.inl rfl)) hc

lemma chronoAnalysisLoop_premier_some_char (l : List Besoin) :
    ∀ (i : ℕ) (s : ℚ) (p : PremierBesoinNonCouvert),
      (chronoAnalysisLoop i s none l).2.1 = some p →
        i ≤ p.index ∧
        ∃ e, (chronoAnalysisLoop i s none l).1[p.index - i]? = some e ∧
          e.etat ≠ CovState.COUVERT ∧
          (∀ j, j < p.index - i →
            ∀ e', (chronoAnalysisLoop i s none l).1[j]? = some e' →
              e'.etat = CovState.COUVERT) ∧
          p.echeance = e.echeance ∧ p.quantite_besoin = e.quantite_besoin ∧
          p.stock_restant = e.stock_avant ∧
          p.quantite_manquante = e.quantite_besoin - e.stock_avant := by
  induction l with
  | nil => intro i s p hp; simp [chronoAnalysisLoop] at hp
  | cons b rest ih =>
      intro i s p hp
      by_cases hc : (calculateCoverageState s b.quantite).1 = CovState.COUVERT
      · rw [chronoAnalysisLoop_cons_covered i s none b rest hc] at hp ⊢
        simp only at hp
        obtain ⟨hle, e, hget, hne, hprior, hfields⟩ := ih (i + 1) (s - b.quantite) p hp
        refine ⟨le_trans (Nat.le_succ i) hle, e, ?_, hne, ?_, hfields⟩
        · have hd : p.index - i = (p.index - (i + 1)) + 1 := by omega
          rw [hd]
          simpa using hget
        · intro j hj e' hj'
          match j with
          | 0 =>
              simp only [List.getElem?_cons_zero, Option.some.injEq] at hj'
              rw [← hj']
          | (j' + 1) =>
              have hj2 : j' < p.index - (i + 1) := by omega
              exact hprior j' hj2 e' (by simpa using hj')
      · rw [chronoAnalysisLoop_cons_notcov i s b rest hc] at hp ⊢
        simp only at hp
        rw [chronoAnalysisLoop_premier_const] at hp
        have hpval : p = { index := i
                           echeance := b.echeance
                           quantite_besoin := b.quantite
                           stock_restant := s
                           quantite_manquante := b.quantite - s } :=
          (Option.some_inj.mp hp).symm
        subst hpval
        refine ⟨le_refl i,
          { echeance := b.echeance
            quantite_besoin := b.quantite
            stock_avant := s
            stock_apres :=
              if (calculateCoverageState s b.quantite).1 = CovState.PARTIEL then 0
              else s
            etat := (calculateCoverageState s b.quantite).1 },
          ?_, hc, ?_, rfl, rfl, rfl, rfl⟩
        · simp
        · intro j hj e' hj'
          simp at hj

lemma calcState_available_of_not_covered (s q : ℚ) (hs : 0 ≤ s)
    (h : (calculateCoverageState s q).1 ≠ CovState.COUVERT) :
    (calculateCoverageState s q).2.1 = s := by
  unfold calculateCoverageState at *
  split_ifs at * <;> simp_all
  linarith

/-- C4: with all quantities ≥ 0 and initial supply ≥ 0, the chronological
analysis records a first-unmet event exactly when some event is not
`covered`; when recorded, its index is the first position in due-date
order whose classification differs from `covered`, its recorded remaining
supply is the running supply just before that event, and its shortfall is
the event quantity minus the quantity available for it. -/
theorem C4_first_unmet_event (besoins : List Besoin) (stock : ℚ)
    (hq : ∀ b ∈ besoins, 0 ≤ b.quantite) (hs : 0 ≤ stock) :
    ((createChronologicalAnalysis besoins stock).premier_besoin_non_couvert = none ↔
      ∀ e ∈ (createChronologicalAnalysis besoins stock).couverture_chronologique,
        e.etat = CovState.COUVERT) ∧
    (∀ p, (createChronologicalAnalysis besoins stock).premier_besoin_non_couvert
        = some p →
      ∃ e, (createChronologicalAnalysis besoins
              stock).couverture_chronologique[p.index]? = some e ∧
        e.etat ≠ CovState.COUVERT ∧
        (∀ j, j < p.index →
          ∀ e', (createChronologicalAnalysis besoins
                  stock).couverture_chronologique[j]? = some e' →
            e'.etat = CovState.COUVERT) ∧
        p.echeance = e.echeance ∧ p.quantite_besoin = e.quantite_besoin ∧
        p.stock_restant = e.stock_avant ∧
        p.quantite_manquante = e.quantite_besoin -
          (calculateCoverageState e.stock_avant e.quantite_besoin).2.1) := by
  have hq' : ∀ b ∈ sortByEcheance besoins, 0 ≤ b.quantite :=
    fun b hb => hq b ((sortByEcheance_perm besoins).mem_iff.mp hb)
  constructor
  · exact chronoAnalysisLoop_premier_none_iff (sortByEcheance besoins) 0 stock
  · intro p hp
    obtain ⟨-, e, hget, hne, hprior, hech, hqe, hsr, hqm⟩ :=
      chronoAnalysisLoop_premier_some_char (sortByEcheance besoins) 0 stock p hp
    rw [Nat.sub_zero] at hget hprior
    have hmem : e ∈ (createChronologicalAnalysis besoins
        stock).couverture_chronologique := by
      exact List.getElem?_mem hget
    have hnn := (chronoAnalysisLoop_nonneg (sortByEcheance besoins) 0 stock none
      hq' hs).1 e hmem
    have hcons := chronoAnalysisLoop_consistent (sortByEcheance besoins) 0 stock
      none e hmem
    refine ⟨e, hget, hne, hprior, hech, hqe, hsr, ?_⟩
    rw [calcState_available_of_not_covered e.stock_avant e.quantite_besoin hnn.1
      (hcons.1 ▸ hne)]
    exact hqm

/-- Witness for C4 at Scenario B (supply 0, one event of quantity 50):
the recorded first-unmet event has index 0. -/
theorem C4_witness :
    ∃ e, (createChronologicalAnalysis
        [{ id := "1", matiere := { code_mp := "M1", nom := "M one" },
           quantite := 50, echeance := 1, etat := Etat.INCONNU, lot := "" }]
        0).couverture_chronologique[
          ({ index := 0, echeance := 1, quantite_besoin := 50,
             stock_restant := 0,
             quantite_manquante := 50 } : PremierBesoinNonCouvert).index]? =
          some e ∧
      e.etat ≠ CovState.COUVERT ∧
      (∀ j, j < ({ index := 0, echeance := 1, quantite_besoin := 50,
                   stock_restant := 0,
                   quantite_manquante := 50 } : PremierBesoinNonCouvert).index →
        ∀ e', (createChronologicalAnalysis
            [{ id := "1", matiere := { code_mp := "M1", nom := "M one" },
               quantite := 50, echeance := 1, etat := Etat.INCONNU, lot := "" }]
            0).couverture_chronologique[j]? = some e' →
          e'.etat = CovState.COUVERT) ∧
      ({ index := 0, echeance := 1, quantite_besoin := 50, stock_restant := 0,
         quantite_manquante := 50 } : PremierBesoinNonCouvert).echeance =
          e.echeance ∧
      ({ index := 0, echeance := 1, quantite_besoin := 50, stock_restant := 0,
         quantite_manquante := 50 } : PremierBesoinNonCouvert).quantite_besoin =
          e.quantite_besoin ∧
      ({ index := 0, echeance := 1, quantite_besoin := 50, stock_restant := 0,
         quantite_manquante := 50 } : PremierBesoinNonCouvert).stock_restant =
          e.stock_avant ∧
      ({ index := 0, echeance := 1, quantite_besoin := 50, stock_restant := 0,
         quantite_manquante := 50 } : PremierBesoinNonCouvert).quantite_manquante =
        e.quantite_besoin -
          (calculateCoverageState e.stock_avant e.quantite_besoin).2.1 :=
  (C4_first_unmet_event
      [{ id := "1", matiere := { code_mp := "M1", nom := "M one" },
         quantite := 50, echeance := 1, etat := Etat.INCONNU, lot := "" }] 0
      (by intro b hb; fin_cases hb <;> norm_num) (by norm_num)).2
    { index := 0, echeance := 1, quantite_besoin := 50, stock_restant := 0,
      quantite_manquante := 50 }
    (by norm_num [createChronologicalAnalysis, sortByEcheance, insertByEcheance,
        chronoAnalysisLoop, calculateCoverageState]
        intro h
        simp at h)

lemma foldl_produits_match (code_mp : String) (ps : List ProduitRappatriement) :
    ∀ acc : ℚ,
      ps.foldl
        (fun acc2 p => if produitMatches code_mp p then acc2 + p.poids_net
                       else acc2) acc =
        acc + produitsMatchSum code_mp ps := by
  induction ps with
  | nil => intro acc; simp [produitsMatchSum]
  | cons p rest ih =>
      intro acc
      by_cases hp : produitMatches code_mp p
      · simp [List.foldl_cons, hp, ih, produitsMatchSum, List.filter_cons]
        ring
      · simp [List.foldl_cons, hp, ih, produitsMatchSum, List.filter_cons]

lemma calculateRappatriementsQuantity_eq_sum (code_mp : String)
    (rs : List Rappatriement) :
    calculateRappatriementsQuantity code_mp rs =
      (rs.map (fun r => produitsMatchSum code_mp r.produits)).sum := by
  have hgen : ∀ (l : List Rappatriement) (acc : ℚ),
      l.foldl
        (fun acc r =>
          r.produits.foldl
            (fun acc2 p => if produitMatches code_mp p then acc2 + p.poids_net
                           else acc2) acc) acc =
        acc + (l.map (fun r => produitsMatchSum code_mp r.produits)).sum := by
    intro l
    induction l with
    | nil => intro acc; simp
    | cons r rest ih =>
        intro acc
        rw [List.foldl_cons, foldl_produits_match, ih]
        simp
        ring
  unfold calculateRappatriementsQuantity
  rw [hgen]
  simp

lemma produitsMatchSum_eq_zero (code_mp : String)
    (ps : List ProduitRappatriement)
    (h : ∀ p ∈ ps, produitMatches code_mp p = false) :
    produitsMatchSum code_mp ps = 0 := by
  unfold produitsMatchSum
  rw [List.filter_eq_nil.mpr (by simpa using h)]
  rfl

lemma calcRapp_filter_eq (s : RepoState) (code_mp : String) :
    calculateRappatriementsQuantity code_mp (getRappatriementsByMatiere s code_mp)
      = calculateRappatriementsQuantity code_mp s.rappatriements := by
  rw [calculateRappatriementsQuantity_eq_sum, calculateRappatriementsQuantity_eq_sum]
  unfold getRappatriementsByMatiere
  induction s.rappatriements with
  | nil => rfl
  | cons r rest ih =>
      rw [List.filter_cons]
      by_cases hr : r.produits.any (produitMatches code_mp)
      · rw [if_pos (by simpa using hr)]
        simp only [List.map_cons, List.sum_cons, ih]
      · have hz : produitsMatchSum code_mp r.produits = 0 := by
          apply produitsMatchSum_eq_zero
          intro p hp
          by_contra hcon
          have : r.produits.any (produitMatches code_mp) := by
            rw [List.any_eq_true]
            exact ⟨p, hp, by simpa using hcon⟩
          exact hr this
        rw [if_neg (by simpa using hr)]
        simp only [List.map_cons, List.sum_cons, hz, ih, zero_add]

/-- C6: a shipment line item's net quantity is included in a material's
inbound-shipment quantity iff the material code, compared
case-insensitively, occurs as a substring of the line's product code or of
its description (first conjunct: the loop equals the filter-by-substring
sum); and one line can be counted toward several distinct materials whose
codes both occur as substrings (remaining conjuncts: a concrete line
matching both `"ab"` and `"BC"`). -/
theorem C6_substring_shipment_matching :
    (∀ (code_mp : String) (rs : List Rappatriement),
      calculateRappatriementsQuantity code_mp rs =
        (rs.map (fun r =>
          ((r.produits.filter (fun p =>
              pyIn code_mp p.code_prdt || pyIn code_mp p.designation_prdt)).map
            (·.poids_net)).sum)).sum) ∧
    calculateRappatriementsQuantity "ab"
      [{ produits :=
          [{ code_prdt := "XABCY", designation_prdt := "", poids_net := 5 }] }]
      = 5 ∧
    calculateRappatriementsQuantity "BC"
      [{ produits :=
          [{ code_prdt := "XABCY", designation_prdt := "", poids_net := 5 }] }]
      = 5 ∧
    ("ab" : String) ≠ "BC" := by
  refine ⟨?_, ?_, ?_, by decide⟩
  · intro code_mp rs
    rw [calculateRappatriementsQuantity_eq_sum]
    rfl
  · have hm : produitMatches "ab"
        { code_prdt := "XABCY", designation_prdt := "", poids_net := 5 } = true := by
      decide
    simp [calculateRappatriementsQuantity, List.foldl_cons, List.foldl_nil, hm]
  · have hm : produitMatches "BC"
        { code_prdt := "XABCY", designation_prdt := "", poids_net := 5 } = true := by
      decide
    simp [calculateRappatriementsQuantity, List.foldl_cons, List.foldl_nil, hm]

lemma getInternalStocksByMatiere_eq (s : RepoState) (code_mp : String) :
    getInternalStocksByMatiere s code_mp =
      s.stocks.filter (fun st => stockMatches code_mp st ∧ st.magasin ≠ "30" ∧
        ¬ st.magasin.startsWith "EX") := by
  unfold getInternalStocksByMatiere getStocksByMatiere
  rw [List.filter_filter]
  apply List.filter_congr
  intro st _
  by_cases h1 : stockMatches code_mp st <;> by_cases h2 : st.magasin = "30" <;>
    by_cases h3 : st.magasin.startsWith "EX" <;> simp [h1, h2, h3]

/-- C3: the coverage-eligible supply equals the sum of the material's
internal stock quantities (warehouse not starting with `"EX"` and
different from the reserved `"30"`) plus the substring-matched
inbound-shipment quantity over all shipments; with no matching stock and
no matching shipment line the result is 0 (no error is possible: the
function is total); and neither pending receipts nor external/reserved
stock records ever contribute to this pool. -/
theorem C3_coverage_supply_pool (s : RepoState) (code_mp : String) :
    getCoverageStockForMatiere s code_mp =
      ((s.stocks.filter (fun st => stockMatches code_mp st ∧
          st.magasin ≠ "30" ∧ ¬ st.magasin.startsWith "EX")).map
        (·.quantite)).sum +
      calculateRappatriementsQuantity code_mp s.rappatriements ∧
    ((∀ st ∈ s.stocks, ¬ stockMatches code_mp st) →
      (∀ r ∈ s.rappatriements, ∀ p ∈ r.produits,
        produitMatches code_mp p = false) →
      getCoverageStockForMatiere s code_mp = 0) ∧
    (∀ (receptions' : List Reception) (ext : List Stock),
      (∀ st ∈ ext, st.magasin.startsWith "EX" ∨ st.magasin = "30") →
      getCoverageStockForMatiere
        { besoins := s.besoins
          stocks := s.stocks ++ ext
          receptions := receptions'
          rappatriements := s.rappatriements } code_mp =
        getCoverageStockForMatiere s code_mp) := by
  have hmain : getCoverageStockForMatiere s code_mp =
      ((s.stocks.filter (fun st => stockMatches code_mp st ∧
          st.magasin ≠ "30" ∧ ¬ st.magasin.startsWith "EX")).map
        (·.quantite)).sum +
      calculateRappatriementsQuantity code_mp s.rappatriements := by
    simp only [getCoverageStockForMatiere]
    rw [calcRapp_filter_eq, getInternalStocksByMatiere_eq]
  refine ⟨hmain, ?_, ?_⟩
  · intro h1 h2
    rw [hmain]
    have hfil : s.stocks.filter (fun st => stockMatches code_mp st ∧
        st.magasin ≠ "30" ∧ ¬ st.magasin.startsWith "EX") = [] := by
      rw [List.filter_eq_nil]
      intro st hst
      simp only [decide_eq_true_eq, not_and]
      intro hm
      exact absurd hm (h1 st hst)
    have hrap : calculateRappatriementsQuantity code_mp s.rappatriements = 0 := by
      rw [calculateRappatriementsQuantity_eq_sum]
      apply List.sum_eq_zero
      intro x hx
      rw [List.mem_map] at hx
      obtain ⟨r, hr, hrx⟩ := hx
      rw [← hrx]
      exact produitsMatchSum_eq_zero code_mp r.produits (h2 r hr)
    rw [hfil, hrap]
    simp
  · intro receptions' ext hext
    have hmod : getCoverageStockForMatiere
        { besoins := s.besoins
          stocks := s.stocks ++ ext
          receptions := receptions'
          rappatriements := s.rappatriements } code_mp =
        (((s.stocks ++ ext).filter (fun st => stockMatches code_mp st ∧
            st.magasin ≠ "30" ∧ ¬ st.magasin.startsWith "EX")).map
          (·.quantite)).sum +
        calculateRappatriementsQuantity code_mp s.rappatriements := by
      simp only [getCoverageStockForMatiere]
      rw [calcRapp_filter_eq, getInternalStocksByMatiere_eq]
    have hextnil : ext.filter (fun st => stockMatches code_mp st ∧
        st.magasin ≠ "30" ∧ ¬ st.magasin.startsWith "EX") = [] := by
      rw [List.filter_eq_nil]
      intro st hst
      simp only [decide_eq_true_eq, not_and]
      intro _ h30 hEX
      rcases hext st hst with h | h
      · exact hEX h
      · exact h30 h
    rw [hmod, hmain, List.filter_append, hextnil, List.append_nil]

/-- Witness for C3: an entirely unknown material over a non-trivial state
yields 0. -/
theorem C3_witness :
    getCoverageStockForMatiere
      { besoins := []
        stocks := [{ matiere := some { code_mp := "OTHER", nom := "Other" },
                     quantite := 3, magasin := "A1" }]
        receptions := []
        rappatriements :=
          [{ produits :=
              [{ code_prdt := "OTHER", designation_prdt := "Other stuff",
                 poids_net := 7 }] }] } "ZZZ" = 0 :=
  (C3_coverage_supply_pool _ "ZZZ").2.1
    (by intro st hst; fin_cases hst; simp [stockMatches])
    (by intro r hr p hp; fin_cases hr; fin_cases hp; decide)

/-- C8: when no demand events match the material and window,
`analyze_matiere_coverage` returns the well-formed empty analysis (zero
counts, zero rate, zero quantities, empty per-event and chronological
lists, no first-unmet event) instead of raising an error. -/
theorem C8_empty_analysis (s : RepoState) (code_mp : String) (d h : ℤ)
    (hempty : getBesoinsActuelsByMatiereAndHorizon s code_mp h d = []) :
    analyzeMatiereCoverage s code_mp d h = createEmptyAnalyse code_mp d h ∧
    ∃ m, (analyzeMatiereCoverage s code_mp d h).analyse_matiere = some m ∧
      m.total_besoins = 0 ∧ m.total_couverts = 0 ∧ m.taux_couverture = 0 ∧
      m.quantite_besoin_totale = 0 ∧ m.quantite_stock_internes = 0 ∧
      m.stocks_externes = [] ∧ m.quantite_receptions = 0 ∧
      m.quantite_rappatriements = 0 ∧ m.quantite_totale_disponible = 0 ∧
      m.stock_couverture_disponible = 0 ∧ m.stock_manquant = 0 ∧
      m.couverture_par_besoin = [] ∧
      m.analyse_chronologique.couverture_chronologique = [] ∧
      m.analyse_chronologique.premier_besoin_non_couvert = none ∧
      m.analyse_chronologique.stock_initial = 0 ∧
      m.analyse_chronologique.stock_final = 0 := by
  have heq : analyzeMatiereCoverage s code_mp d h =
      createEmptyAnalyse code_mp d h := by
    simp [analyzeMatiereCoverage, hempty]
  refine ⟨heq, ?_⟩
  rw [heq]
  exact ⟨_, rfl, rfl, rfl, rfl, rfl, rfl, rfl, rfl, rfl, rfl, rfl, rfl, rfl,
    rfl, rfl, rfl, rfl⟩

/-- Witness for C8 on an empty repository. -/
theorem C8_witness :
    analyzeMatiereCoverage
        { besoins := [], stocks := [], receptions := [], rappatriements := [] }
        "M1" 0 30 =
      createEmptyAnalyse "M1" 0 30 :=
  (C8_empty_analysis
    { besoins := [], stocks := [], receptions := [], rappatriements := [] }
    "M1" 0 30 rfl).1

lemma mem_getBesoinsActuelsByHorizon (s : RepoState) (h d : ℤ) (b : Besoin) :
    b ∈ getBesoinsActuelsByHorizon s h d ↔
      b ∈ s.besoins ∧ b.etat = Etat.INCONNU ∧ b.echeance ≤ d + h := by
  simp only [getBesoinsActuelsByHorizon, getBesoinsByEtat, List.mem_filter,
    decide_eq_true_eq]
  tauto

lemma mem_getBesoinsActuelsByMatiereAndHorizon (s : RepoState)
    (code_mp : String) (h d : ℤ) (b : Besoin) :
    b ∈ getBesoinsActuelsByMatiereAndHorizon s code_mp h d ↔
      b ∈ s.besoins ∧ b.etat = Etat.INCONNU ∧ b.matiere.code_mp = code_mp ∧
        b.echeance ≤ d + h := by
  simp only [getBesoinsActuelsByMatiereAndHorizon, List.mem_filter,
    mem_getBesoinsActuelsByHorizon, decide_eq_true_eq]
  tauto

lemma flattenGroups_cons (g : String × List Besoin)
    (rest : List (String × List Besoin)) :
    flattenGroups (g :: rest) = g.2 ++ flattenGroups rest := by
  simp [flattenGroups]

lemma mem_flattenGroups_addToGroups (gs : List (String × List Besoin))
    (code : String) (b x : Besoin) :
    x ∈ flattenGroups (addToGroups gs code b) ↔ x ∈ flattenGroups gs ∨ x = b := by
  induction gs with
  | nil => simp [addToGroups, flattenGroups]
  | cons g rest ih =>
      obtain ⟨c, bs⟩ := g
      by_cases hc : c = code
      · rw [show addToGroups ((c, bs) :: rest) code b =
              (c, bs ++ [b]) :: rest from by simp [addToGroups, hc]]
        rw [flattenGroups_cons, flattenGroups_cons]
        simp only [List.mem_append, List.mem_singleton]
        tauto
      · simp only [addToGroups, if_neg hc]
        rw [flattenGroups_cons, flattenGroups_cons]
        simp only [List.mem_append, ih]
        tauto

lemma mem_flattenGroups_foldl (l : List Besoin) :
    ∀ (gs : List (String × List Besoin)) (x : Besoin),
      x ∈ flattenGroups
          (l.foldl (fun gs b => addToGroups gs b.matiere.code_mp b) gs) ↔
        x ∈ flattenGroups gs ∨ x ∈ l := by
  induction l with
  | nil => intro gs x; simp
  | cons b rest ih =>
      intro gs x
      rw [List.foldl_cons, ih, mem_flattenGroups_addToGroups]
      simp only [List.mem_cons]
      tauto

lemma mem_groupBesoinsByMatiere (l : List Besoin) (x : Besoin) :
    x ∈ flattenGroups (groupBesoinsByMatiere l) ↔ x ∈ l := by
  unfold groupBesoinsByMatiere
  rw [mem_flattenGroups_foldl]
  simp [flattenGroups]

/-- C2 counterexample: a demand event due on day 0, i.e. strictly before
the start date (day 10), is nevertheless fetched and analyzed by the
windowed single-material entry point with horizon 5 — the window's lower
bound is not enforced. -/
theorem C2_counterexample :
    getBesoinsActuelsByMatiereAndHorizon
        { besoins := [{ id := "b", matiere := { code_mp := "M1", nom := "M one" },
                        quantite := 7, echeance := 0, etat := Etat.INCONNU,
                        lot := "" }],
          stocks := [], receptions := [], rappatriements := [] } "M1" 5 10 =
      [{ id := "b", matiere := { code_mp := "M1", nom := "M one" },
         quantite := 7, echeance := 0, etat := Etat.INCONNU, lot := "" }] ∧
    ({ id := "b", matiere := { code_mp := "M1", nom := "M one" },
       quantite := 7, echeance := 0, etat := Etat.INCONNU,
       lot := "" } : Besoin).echeance < 10 ∧
    ((analyzeMatiereCoverage
        { besoins := [{ id := "b", matiere := { code_mp := "M1", nom := "M one" },
                        quantite := 7, echeance := 0, etat := Etat.INCONNU,
                        lot := "" }],
          stocks := [], receptions := [], rappatriements := [] }
        "M1" 10 5).analyse_matiere.map (fun m => m.total_besoins)) = some 1 := by
  refine ⟨by decide, by decide, rfl⟩

/-- C2 (amended): the windowed entry points operate on exactly the demand
events with classification `unknown` and due date `≤ start_date +
horizon_days`; the lower bound of the claimed window is NOT enforced, so
events due before the start date are included.  The conjuncts characterize
membership in `get_besoins_actuels_by_horizon` (the event set analyzed by
`analyze_coverage` through its by-material grouping, whose flattening is
shown to coincide) and in `get_besoins_actuels_by_matiere_and_horizon`
(the event list analyzed by `analyze_matiere_coverage`). -/
theorem C2_horizon_window (s : RepoState) (code_mp : String) (d h : ℤ)
    (b : Besoin) :
    (b ∈ getBesoinsActuelsByHorizon s h d ↔
      b ∈ s.besoins ∧ b.etat = Etat.INCONNU ∧ b.echeance ≤ d + h) ∧
    (b ∈ getBesoinsActuelsByMatiereAndHorizon s code_mp h d ↔
      b ∈ s.besoins ∧ b.etat = Etat.INCONNU ∧ b.matiere.code_mp = code_mp ∧
        b.echeance ≤ d + h) ∧
    (b ∈ flattenGroups (getBesoinsActuelsByHorizonGrouped s h d) ↔
      b ∈ getBesoinsActuelsByHorizon s h d) := by
  refine ⟨mem_getBesoinsActuelsByHorizon s h d b,
    mem_getBesoinsActuelsByMatiereAndHorizon s code_mp h d b, ?_⟩
  unfold getBesoinsActuelsByHorizonGrouped
  exact mem_groupBesoinsByMatiere _ b

lemma specAllocLoop_besoin_mem (l : List Besoin) :
    ∀ (s : ℚ) (r : CouvertureResult), r ∈ (specAllocLoop s l).1 → r.besoin ∈ l := by
  induction l with
  | nil => intro s r hr; simp [specAllocLoop] at hr
  | cons b rest ih =>
      intro s r hr
      simp only [specAllocLoop] at hr
      rcases List.mem_cons.mp hr with h | h
      · subst h; exact List.mem_cons_self _ _
      · exact List.mem_cons_of_mem _ (ih _ r h)

lemma analyzeMatiereChronologicalCoverage_besoin_mem (besoins : List Besoin)
    (stock : ℚ) (r : CouvertureResult)
    (hr : r ∈ analyzeMatiereChronologicalCoverage besoins stock) :
    r.besoin ∈ besoins := by
  rw [analyzeMatiereChronologicalCoverage_eq_spec] at hr
  exact (sortByEcheance_perm besoins).mem_iff.mp
    (specAllocLoop_besoin_mem _ stock r hr)

lemma mem_foldl_append {α : Type} (f : α → List Besoin) (l : List α) :
    ∀ (acc : List Besoin) (x : Besoin),
      (x ∈ l.foldl (fun acc g => acc ++ f g) acc ↔
        x ∈ acc ∨ ∃ g ∈ l, x ∈ f g) := by
  induction l with
  | nil => intro acc x; simp
  | cons g rest ih =>
      intro acc x
      rw [List.foldl_cons, ih]
      simp only [List.mem_append, List.mem_cons]
      constructor
      · rintro (⟨h | h⟩ | ⟨g', hg', hx⟩)
        · exact Or.inl h
        · exact Or.inr ⟨g, Or.inl rfl, h⟩
        · exact Or.inr ⟨g', Or.inr hg', hx⟩
      · rintro (h | ⟨g', hg' | hg', hx⟩)
        · exact Or.inl (Or.inl h)
        · subst hg'; exact Or.inl (Or.inr hx)
        · exact Or.inr ⟨g', hg', hx⟩

lemma mem_flattenGroups_of_mem {g : String × List Besoin}
    {gs : List (String × List Besoin)} (hg : g ∈ gs) {x : Besoin}
    (hx : x ∈ g.2) : x ∈ flattenGroups gs := by
  unfold flattenGroups
  rw [List.mem_join]
  exact ⟨g.2, List.mem_map_of_mem Prod.snd hg, hx⟩

lemma stringToEtat_ne_inconnu (c : CovState) : stringToEtat c ≠ Etat.INCONNU := by
  cases c <;> simp [stringToEtat]

/-- C5: `analyze_besoins` mutates no persisted state: the repository state
after the call is the state before it (so every stored demand event, and
in particular its `unknown` classification, is unchanged), and every
element of the returned list is a fresh copy — it carries the id,
material, quantity, due date and lot of some stored `unknown` event, with
only the classification replaced by a computed (non-`unknown`) value. -/
theorem C5_analyze_besoins_non_mutating (s : RepoState) :
    (analyzeBesoins s).1 = s ∧
    ∀ b ∈ (analyzeBesoins s).2, ∃ b0 ∈ s.besoins,
      b0.etat = Etat.INCONNU ∧ b.id = b0.id ∧ b.matiere = b0.matiere ∧
      b.quantite = b0.quantite ∧ b.echeance = b0.echeance ∧ b.lot = b0.lot ∧
      b.etat ≠ Etat.INCONNU := by
  refine ⟨rfl, ?_⟩
  intro b hb
  have hb2 : b ∈ (groupBesoinsByMatiere (getBesoinsByEtat s Etat.INCONNU)).foldl
      (fun acc g => acc ++ besoinCopies
        (analyzeMatiereChronologicalCoverage g.2
          (getCoverageStockForMatiere s g.1))) [] := by
    have : (analyzeBesoins s).2 = sortByEcheance
        ((groupBesoinsByMatiere (getBesoinsByEtat s Etat.INCONNU)).foldl
          (fun acc g => acc ++ besoinCopies
            (analyzeMatiereChronologicalCoverage g.2
              (getCoverageStockForMatiere s g.1))) []) := rfl
    rw [this] at hb
    exact (sortByEcheance_perm _).mem_iff.mp hb
  rw [mem_foldl_append] at hb2
  rcases hb2 with h | ⟨g, hg, hbg⟩
  · simp at h
  · unfold besoinCopies at hbg
    rw [List.mem_map] at hbg
    obtain ⟨r, hr, hbr⟩ := hbg
    have hrb : r.besoin ∈ g.2 :=
      analyzeMatiereChronologicalCoverage_besoin_mem g.2 _ r hr
    have hflat : r.besoin ∈ flattenGroups
        (groupBesoinsByMatiere (getBesoinsByEtat s Etat.INCONNU)) :=
      mem_flattenGroups_of_mem hg hrb
    rw [mem_groupBesoinsByMatiere] at hflat
    have hmem : r.besoin ∈ s.besoins ∧ r.besoin.etat = Etat.INCONNU := by
      unfold getBesoinsByEtat at hflat
      rw [List.mem_filter] at hflat
      exact ⟨hflat.1, by simpa using hflat.2⟩
    refine ⟨r.besoin, hmem.1, hmem.2, ?_, ?_, ?_, ?_, ?_, ?_⟩ <;>
      rw [← hbr]
    exact stringToEtat_ne_inconnu r.etat_couverture

/-- C9: `analyze_besoins` is deterministic and idempotent: calling it
again on the repository state left by a first call (no intervening data
changes) returns the same classified list and leaves the same state.
Both equalities are definitional because the embedded call issues only
repository reads. -/
theorem C9_analyze_besoins_idempotent (s : RepoState) :
    (analyzeBesoins ((analyzeBesoins s).1)).2 = (analyzeBesoins s).2 ∧
    (analyzeBesoins ((analyzeBesoins s).1)).1 = (analyzeBesoins s).1 :=
  ⟨rfl, rfl⟩
